import Mathlib

/-!
Verification of the minimal-bot webhook automation code (bot.py, github_app.py,
utils.py, config.py) against its natural-language specification.

The Python code is shallowly embedded: dictionaries become structures, string
operations are modelled by executable functions over `List Char` (so that every
definition reduces in the kernel), the GitHub platform and the regex engine are
oracles passed in as parameters, and fallible operations (Python indexing that
can raise `IndexError`) return `Except`.
-/

/-! ## Python string primitives, modelled over `List Char` -/

/-- Whitespace set used by Python `str.split()` / `str.strip()` (ASCII part). -/
def pyIsWs (c : Char) : Bool :=
  c = ' ' || c = '\t' || c = '\n' || c = '\x0d' || c = '\x0b' || c = '\x0c'

/-- Predicate `leadChars pre l` is true when `pre` is a prefix of `l` (Python `startswith`). -/
def leadChars : List Char → List Char → Bool
  | [], _ => true
  | _ :: _, [] => false
  | a :: as, b :: bs => a == b && leadChars as bs

/-- Python `s.startswith(pre)`. -/
def pyStartsWith (s pre : String) : Bool := leadChars pre.data s.data

/-- Python `s.endswith(suf)`. -/
def pyEndsWith (s suf : String) : Bool := leadChars suf.data.reverse s.data.reverse

/-- Predicate `containsChars needle hay`: `needle` occurs contiguously inside `hay`. -/
def containsChars (needle : List Char) : List Char → Bool
  | [] => needle.isEmpty
  | c :: t => leadChars needle (c :: t) || containsChars needle t

/-- Python `needle in hay` for strings (substring containment). -/
def pyInStr (needle hay : String) : Bool := containsChars needle.data hay.data

/-- Python `c in s` for a single character. -/
def pyContains (s : String) (c : Char) : Bool := s.data.any (fun d => d == c)

/-- Python `s.strip()`. -/
def pyStrip (s : String) : String :=
  ⟨((s.data.dropWhile pyIsWs).reverse.dropWhile pyIsWs).reverse⟩

/-- Python `s.lower()` (ASCII). -/
def pyLower (s : String) : String := ⟨s.data.map Char.toLower⟩

/-- Accumulator pass for Python `str.split()` with no separator:
split on whitespace runs, discarding empty pieces. -/
def wsSplitAux : List Char → List Char → List (List Char)
  | [], cur => if cur.isEmpty then [] else [cur.reverse]
  | c :: t, cur =>
    if pyIsWs c then
      if cur.isEmpty then wsSplitAux t [] else cur.reverse :: wsSplitAux t []
    else wsSplitAux t (c :: cur)

/-- Python `s.split()` (whitespace split, no empty fields). -/
def pySplitWs (s : String) : List String := (wsSplitAux s.data []).map String.mk

/-- Fuel-driven pass for Python `s.split(sep)` with a non-empty separator;
keeps empty fields, scans left to right, non-overlapping. -/
def pySplitAux (sep : List Char) : Nat → List Char → List Char → List (List Char)
  | 0, l, cur => [cur.reverse ++ l]
  | _ + 1, [], cur => [cur.reverse]
  | fuel + 1, c :: t, cur =>
    if leadChars sep (c :: t) && !sep.isEmpty then
      cur.reverse :: pySplitAux sep fuel (List.drop sep.length (c :: t)) []
    else
      pySplitAux sep fuel t (c :: cur)

/-- Python `s.split(sep)` for a non-empty separator string. -/
def pySplit (s sep : String) : List String :=
  (pySplitAux sep.data (s.data.length + 1) s.data []).map String.mk

/-- Python `s[:n]` on strings. -/
def strTake (n : Nat) (s : String) : String := ⟨s.data.take n⟩

/-- Python `s[n:]` on strings. -/
def strDrop (n : Nat) (s : String) : String := ⟨s.data.drop n⟩

/-- Python `s.replace(old, new)` for single characters. -/
def replaceChar (old new : Char) (s : String) : String :=
  ⟨s.data.map (fun c => if c == old then new else c)⟩

/-- Accumulator pass for Python `str.title()`: the flag records whether the
previous character was alphabetic. -/
def titleAux : Bool → List Char → List Char
  | _, [] => []
  | prevAlpha, c :: t =>
    if c.isAlpha then
      (if prevAlpha then c.toLower else c.toUpper) :: titleAux true t
    else c :: titleAux false t

/-- Python `s.title()`. -/
def pyTitle (s : String) : String := ⟨titleAux false s.data⟩

/-- Lexicographic comparison on char lists (Python string `<=` on ASCII). -/
def lexLe : List Char → List Char → Bool
  | [], _ => true
  | _ :: _, [] => false
  | a :: as, b :: bs => if a < b then true else if a = b then lexLe as bs else false

/-- Insert into a lexicographically sorted list of strings. -/
def sortedInsert (x : String) : List String → List String
  | [] => [x]
  | y :: t => if lexLe x.data y.data then x :: y :: t else y :: sortedInsert x t

/-- Python `sorted(...)` on strings (insertion sort, code-point order). -/
def sortStrings : List String → List String
  | [] => []
  | x :: t => sortedInsert x (sortStrings t)

/-- Python `set.add` modelled on an insertion-ordered duplicate-free list:
the list carries the contents of the set, in first-insertion order. -/
def setAdd (acc : List String) (x : String) : List String :=
  if x ∈ acc then acc else acc ++ [x]

/-- Python truthiness of an optional string (`None` and the empty string are falsy). -/
def optTruthy : Option String → Bool
  | none => false
  | some s => !s.isEmpty

/-! ## Data model -/

/-- One changed file of a pull request, as returned by the platform
(`GET /pulls/N/files`): `files[i]` with keys `filename`, `changes`, `patch`.
`changes` is read with `.get("changes", 0)`; `patch` may be missing/null. -/
structure FileChange where
  filename : String
  changes : Nat
  patch : Option String
deriving DecidableEq, Repr

/-- Python truthiness of `file.get("patch")`. -/
def patchTruthy (f : FileChange) : Bool := optTruthy f.patch

/-- The patch text of a file (only read after the truthiness check). -/
def patchText (f : FileChange) : String := f.patch.getD ""

/-- One commit object from `GET /commits?path=...`: the `author` key may be
JSON null; when present, we only read `author.login`. -/
structure CommitInfo where
  author : Option String
deriving DecidableEq, Repr

/-- One pull-request object from `GET /pulls?state=closed...`. -/
structure PRInfo where
  title : String
  number : Nat
  login : String
  mergedAt : Option String
deriving DecidableEq, Repr

/-- Result dictionary of `analyze_code_complexity`. -/
structure ComplexityResult where
  score : Nat
  total_lines : Nat
  file_count : Nat
  risk_level : String
deriving DecidableEq, Repr

/-- One finding dictionary appended by `scan_for_vulnerabilities`. -/
structure Finding where
  type : String
  file : String
  severity : String
deriving DecidableEq, Repr

/-- A call against the GitHub REST API, abstracted to its endpoint kind and
payload.  The repository and issue/PR number are taken from the event being
handled (constant within one delivery) and therefore omitted. -/
inductive ApiCall where
  | getFiles
  | getContents (path : String)
  | getCommits (path : String)
  | getPRsByAuthor (author : String)
  | getRepo
  | getClosedPRs
  | addLabels (labels : List String)
  | postComment (body : String)
  | requestReviewers (logins : List String)
  | addAssignees (logins : List String)
  | setIssueState (state : String)
deriving DecidableEq, Repr

/-- Python runtime errors the handlers can actually raise. -/
inductive PyErr where
  | indexError
deriving DecidableEq, Repr

/-! ## utils.py -/

/-- Sum of `f.get("changes", 0)` over the delivered files. -/
def sumChanges (files : List FileChange) : Nat :=
  (files.map (·.changes)).sum

/-- Embedding of `utils.analyze_code_complexity` (utils.py lines 8-26). -/
def analyze_code_complexity (files : List FileChange) : ComplexityResult :=
  let total_lines := sumChanges files
  let file_count := files.length
  let score :=
    (if total_lines > 500 then 3 else if total_lines > 200 then 2
     else if total_lines > 50 then 1 else 0)
    + (if file_count > 10 then 2 else if file_count > 5 then 1 else 0)
  { score := score
    total_lines := total_lines
    file_count := file_count
    risk_level := if score ≥ 4 then "high" else if score ≥ 2 then "medium" else "low" }

/-- The `breaking_patterns` regex list of `utils.detect_breaking_changes`. -/
def breaking_patterns : List String :=
  ["def\\s+\\w+\\([^)]*\\)\\s*->",
   "class\\s+\\w+\\([^)]*\\):",
   "import\\s+\\w+",
   "from\\s+\\w+\\s+import",
   "@\\w+"]

/-- Embedding of `utils.detect_breaking_changes` (utils.py lines 28-46), parameterised by the
regex engine `reSearch pattern text` (Python `re.search` truthiness).  The
`for pattern ... break` loop of the source appends the filename once as soon as any
pattern matches, which is exactly `List.any`. -/
def detect_breaking_changes (reSearch : String → String → Bool)
    (files : List FileChange) : List String :=
  files.foldl
    (fun acc f =>
      if patchTruthy f && breaking_patterns.any (fun pat => reSearch pat (patchText f))
      then acc ++ [f.filename] else acc)
    []

/-- Embedding of `config.SECURITY_PATTERNS` (config.py lines 37-54), in dict insertion order. -/
def SECURITY_PATTERNS : List (String × List String) :=
  [("hardcoded_secrets",
    ["password\\s*=\\s*[\"\\x27][^\"\\x27]+[\"\\x27]",
     "api_key\\s*=\\s*[\"\\x27][^\"\\x27]+[\"\\x27]",
     "secret\\s*=\\s*[\"\\x27][^\"\\x27]+[\"\\x27]",
     "token\\s*=\\s*[\"\\x27][^\"\\x27]+[\"\\x27]"]),
   ("dangerous_functions",
    ["eval\\s*\\(", "exec\\s*\\(", "system\\s*\\(", "shell_exec\\s*\\("]),
   ("sql_injection",
    ["execute\\s*\\(\\s*[\"\\x27].*\\+.*[\"\\x27]",
     "query\\s*\\(\\s*[\"\\x27].*\\+.*[\"\\x27]"])]

/-- The finding dictionary built in `utils.scan_for_vulnerabilities`. -/
def mkFinding (category filename : String) : Finding :=
  { type := category
    file := filename
    severity := if category = "hardcoded_secrets" then "high" else "medium" }

/-- Innermost loop of `utils.scan_for_vulnerabilities`
(`for pattern in patterns: if re.search(...): vulnerabilities.append(...)`). -/
def patFold (reSearch : String → String → Bool) (content fname cat : String)
    (pats : List String) (acc : List Finding) : List Finding :=
  pats.foldl
    (fun acc3 pat => if reSearch pat content then acc3 ++ [mkFinding cat fname] else acc3)
    acc

/-- Middle loop of `utils.scan_for_vulnerabilities`
(`for category, patterns in SECURITY_PATTERNS.items()`). -/
def catFold (reSearch : String → String → Bool) (content fname : String)
    (acc : List Finding) : List Finding :=
  SECURITY_PATTERNS.foldl (fun acc2 cp => patFold reSearch content fname cp.1 cp.2 acc2) acc

/-- Embedding of `utils.scan_for_vulnerabilities` (utils.py lines 73-94), parameterised by the
regex engine.  Files whose `patch` is missing or empty are skipped (`continue`),
the patch is lower-cased once, and the two nested loops append one finding per
matching `(category, pattern)` pair, in catalog order. -/
def scan_for_vulnerabilities (reSearch : String → String → Bool)
    (files : List FileChange) : List Finding :=
  files.foldl
    (fun acc f =>
      if patchTruthy f then catFold reSearch (pyLower (patchText f)) f.filename acc else acc)
    []

/-- Embedding of `config.JOKES`. -/
def JOKES : List String :=
  ["Why do programmers prefer dark mode? Because light attracts bugs! 🐛",
   "How many programmers does it take to change a light bulb? None, that\x27s a hardware problem! 💡",
   "Why do Java developers wear glasses? Because they don\x27t C# 👓",
   "There are only 10 types of people: those who understand binary and those who don\x27t 🤖",
   "A SQL query goes into a bar, walks up to two tables and asks: \x27Can I join you?\x27 🍺",
   "Why did the programmer quit his job? He didn\x27t get arrays! 📊"]

/-- Embedding of `config.MOTIVATIONAL_QUOTES`. -/
def MOTIVATIONAL_QUOTES : List String :=
  ["Code is like humor. When you have to explain it, it\x27s bad. 💭",
   "First, solve the problem. Then, write the code. 🎯",
   "The best error message is the one that never shows up. ✨",
   "Programming isn\x27t about what you know; it\x27s about what you can figure out. 🧠",
   "Clean code always looks like it was written by someone who cares. 💎",
   "Any fool can write code that a computer can understand. Good programmers write code that humans can understand. 👥"]

/-- Embedding of `config.LANGUAGE_LABELS` as an association list in dict insertion order. -/
def LANGUAGE_LABELS : List (String × String) :=
  [(".py", "python"), (".pyx", "python"),
   (".js", "javascript"), (".jsx", "javascript"),
   (".ts", "typescript"), (".tsx", "typescript"),
   (".java", "java"), (".kt", "kotlin"),
   (".cpp", "c++"), (".c", "c++"), (".h", "c++"),
   (".go", "golang"), (".rs", "rust"), (".rb", "ruby"),
   (".php", "php"), (".swift", "swift"), (".cs", "c#"),
   (".scala", "scala"), (".r", "r")]

/-- Embedding of `config.CONTENT_LABELS` in dict insertion order. -/
def CONTENT_LABELS : List (String × List String) :=
  [("documentation", [".md", ".txt", ".rst", ".adoc"]),
   ("config", [".yml", ".yaml", ".json", ".toml", ".ini", ".cfg"]),
   ("styling", [".css", ".scss", ".sass", ".less"]),
   ("frontend", [".html", ".htm", ".vue", ".svelte"]),
   ("database", [".sql", ".db", ".sqlite"]),
   ("docker", ["dockerfile", "docker-compose"]),
   ("ci/cd", [".github", ".gitlab-ci", ".travis", ".circleci"])]

/-! ## Platform / environment oracles -/

/-- Everything external the handlers consult: the responses of the platform, the
regex engine, the OpenAI key and response, the pseudo-random chooser, and the
iteration order Python produces when listing a `set` (`list(someSet)`), modelled
as an arbitrary reordering function applied to the contents of the set. -/
structure Oracle where
  files : List FileChange
  contentsTruthy : String → Bool
  commits : String → List CommitInfo
  prsByAuthorCount : Nat
  repoName : Option String
  closedPRs : List PRInfo
  setOrder : List String → List String
  choose : List String → String
  openaiKey : String
  aiResponse : String → Option String
  reSearch : String → String → Bool

/-- A parsed, well-formed webhook delivery: the event-type header, the
payload field `action`, and the payload fields the handlers read.  Fields irrelevant to a
given event type are simply never consulted, mirroring dictionary access. -/
structure WebhookEvent where
  eventType : String
  action : String
  installationId : Option Nat
  prMerged : Bool
  prAuthor : String
  prTitle : String
  issueTitle : String
  issueBody : Option String
  commenter : String
  commentBody : String

/-! ## bot.py -/

/-- Label contributions of one (lower-cased) filename in `bot.auto_label_pr`
(bot.py lines 45-76): one `if/elif` chain for language, one for file type, one
for directory; each chain contributes at most one label. -/
def bot_file_labels (fn : String) : List String :=
  (if pyEndsWith fn ".py" || pyEndsWith fn ".pyx" then ["python"]
   else if pyEndsWith fn ".js" || pyEndsWith fn ".jsx" || pyEndsWith fn ".ts" || pyEndsWith fn ".tsx" then ["javascript"]
   else if pyEndsWith fn ".java" || pyEndsWith fn ".kt" then ["java"]
   else if pyEndsWith fn ".cpp" || pyEndsWith fn ".c" || pyEndsWith fn ".h" then ["c++"]
   else if pyEndsWith fn ".go" then ["golang"]
   else if pyEndsWith fn ".rs" then ["rust"]
   else if pyEndsWith fn ".rb" then ["ruby"]
   else if pyEndsWith fn ".php" then ["php"]
   else if pyEndsWith fn ".swift" then ["swift"]
   else [])
  ++
  (if pyEndsWith fn ".md" || pyEndsWith fn ".txt" || pyEndsWith fn ".rst" then ["documentation"]
   else if pyInStr "test" fn || pyEndsWith fn ".test.js" || pyEndsWith fn "_test.py" then ["tests"]
   else if pyEndsWith fn ".yml" || pyEndsWith fn ".yaml" || pyEndsWith fn ".json" || pyEndsWith fn ".toml" then ["config"]
   else if pyEndsWith fn ".css" || pyEndsWith fn ".scss" || pyEndsWith fn ".sass" then ["styling"]
   else if pyEndsWith fn ".html" || pyEndsWith fn ".htm" then ["frontend"]
   else if pyInStr "docker" fn || fn = "dockerfile" then ["docker"]
   else if pyEndsWith fn ".sql" then ["database"]
   else if pyInStr "api" fn || pyInStr "endpoint" fn then ["api"]
   else if pyInStr "security" fn || pyInStr "auth" fn then ["security"]
   else if pyInStr "performance" fn || pyInStr "optimize" fn then ["performance"]
   else [])
  ++
  (if pyInStr "/frontend/" fn || pyInStr "/ui/" fn then ["frontend"]
   else if pyInStr "/backend/" fn || pyInStr "/server/" fn then ["backend"]
   else if pyInStr "/mobile/" fn || pyInStr "/android/" fn || pyInStr "/ios/" fn then ["mobile"]
   else if pyInStr "/infra/" fn || pyInStr "/deploy/" fn then ["infrastructure"]
   else [])

/-- Contents of the `labels` set of `bot.auto_label_pr`, in first-insertion
order, including the final size label (bot.py lines 78-81). -/
def bot_collect_labels (files : List FileChange) : List String :=
  let base := files.foldl (fun acc f => (bot_file_labels (pyLower f.filename)).foldl setAdd acc) []
  let lines := sumChanges files
  setAdd base (if lines > 500 then "large" else if lines > 100 then "medium" else "small")

/-- Embedding of `bot.auto_label_pr` (bot.py lines 41-84): posts `list(labels)` when the set
is non-empty (it always is, because of the size label). -/
def bot_auto_label_actions (o : Oracle) (files : List FileChange) : List ApiCall :=
  let labels := bot_collect_labels files
  if labels ≠ [] then [ApiCall.addLabels (o.setOrder labels)] else []

/-- Step `reviewers.add(commit["author"]["login"])` guarded by
`if commit["author"] and commit["author"]["login"] != author` (bot.py lines 96-97). -/
def addLogin (author : String) (acc : List String) (c : CommitInfo) : List String :=
  match c.author with
  | some login => if login ≠ author then setAdd acc login else acc
  | none => acc

/-- Per-file step of `bot.auto_assign_reviewers`: when the contents lookup is
truthy, fold the first 3 of the (up to 5) returned commits into the set. -/
def fileReviewStep (o : Oracle) (author : String) (acc : List String) (f : FileChange) :
    List String :=
  if o.contentsTruthy f.filename then
    ((o.commits f.filename).take 3).foldl (addLogin author) acc
  else acc

/-- Contents of the `reviewers` set of `bot.auto_assign_reviewers`
(bot.py lines 88-97), in first-insertion order. -/
def reviewerSetList (o : Oracle) (files : List FileChange) (author : String) : List String :=
  files.foldl (fileReviewStep o author) []

/-- The login list posted by `bot.auto_assign_reviewers`:
`list(reviewers)[:3]`, where `list(...)` iterates the set in whatever order
Python produces (the `setOrder` oracle). -/
def requestedReviewers (o : Oracle) (files : List FileChange) (author : String) : List String :=
  (o.setOrder (reviewerSetList o files author)).take 3

/-- The GET calls `bot.auto_assign_reviewers` issues while gathering history. -/
def reviewerQueryTrace (o : Oracle) (files : List FileChange) : List ApiCall :=
  files.flatMap (fun f =>
    ApiCall.getContents f.filename ::
      (if o.contentsTruthy f.filename then [ApiCall.getCommits f.filename] else []))

/-- Embedding of `bot.auto_assign_reviewers` (bot.py lines 86-101). -/
def auto_assign_reviewers (o : Oracle) (files : List FileChange) (author : String) :
    List ApiCall :=
  reviewerQueryTrace o files ++
    (if reviewerSetList o files author ≠ [] then
      [ApiCall.requestReviewers (requestedReviewers o files author)]
     else [])

/-- Welcome message of `bot.welcome_contributor` (bot.py lines 107-119). -/
def botWelcomeMsg (repoName : Option String) (author : String) : String :=
  "🎉 Welcome @" ++ author ++ "! Thanks for your first contribution to "
    ++ repoName.getD "this project" ++ "!\n\n📋 **Quick checklist:**\n- [ ] Tests added/updated\n- [ ] Documentation updated\n- [ ] Code follows project style\n\n💡 **Tips:**\n- Use `/help` to see available commands\n- Tag maintainers with questions\n- Check CI status below\n\nThanks for making this project better! 🚀"

/-- Embedding of `bot.welcome_contributor` (bot.py lines 103-120). -/
def bot_welcome_actions (o : Oracle) (author : String) : List ApiCall :=
  ApiCall.getPRsByAuthor author ::
    (if o.prsByAuthorCount = 1 then
      [ApiCall.getRepo, ApiCall.postComment (botWelcomeMsg o.repoName author)]
     else [])

/-- The advisory list built by `bot.check_pr_requirements` (bot.py lines 122-140). -/
def bot_requirement_issues (files : List FileChange) : List String :=
  let has_tests := files.any (fun f => pyInStr "test" (pyLower f.filename))
  let has_code := files.any (fun f =>
    pyEndsWith f.filename ".py" || pyEndsWith f.filename ".js" || pyEndsWith f.filename ".ts"
      || pyEndsWith f.filename ".java" || pyEndsWith f.filename ".go")
  let large_files := (files.filter (fun f => f.changes > 300)).map (·.filename)
  let has_docs := files.any (fun f =>
    pyEndsWith f.filename ".md" || pyEndsWith f.filename ".rst" || pyEndsWith f.filename ".txt")
  (if has_code && !has_tests then ["⚠️ Consider adding tests for your code changes"] else [])
  ++ (if large_files ≠ [] then
        ["📏 Large files detected: " ++ String.intercalate ", " (large_files.take 3)
          ++ " - consider splitting"]
      else [])
  ++ (if files.length > 5 && !has_docs then
        ["📚 Consider updating documentation for this change"] else [])

/-- Embedding of `bot.check_pr_requirements` (bot.py lines 122-144). -/
def bot_check_req_actions (files : List FileChange) : List ApiCall :=
  let issues := bot_requirement_issues files
  if issues ≠ [] then
    [ApiCall.postComment ("🤖 **Automated PR Review:**\n\n"
      ++ String.intercalate "\n" (issues.map (fun i => "- " ++ i)))]
  else []

/-- Embedding of `bot.security_scan_pr` (bot.py lines 161-178): substring heuristics over the
lower-cased patch of each file with a truthy patch. -/
def bot_security_scan (files : List FileChange) : List String :=
  files.foldl
    (fun acc f =>
      if patchTruthy f then
        let p := pyLower (patchText f)
        acc
        ++ (if pyInStr "password" p && pyInStr "=" p then
              ["⚠️ Potential hardcoded password in " ++ f.filename] else [])
        ++ (if pyInStr "api_key" p || pyInStr "secret" p then
              ["🔐 Potential API key/secret in " ++ f.filename] else [])
        ++ (if pyInStr "eval(" p || pyInStr "exec(" p then
              ["⚡ Dangerous eval/exec usage in " ++ f.filename] else [])
        ++ (if pyInStr "sql" p && (pyInStr "drop" p || pyInStr "delete" p) then
              ["🗃️ Potential SQL injection risk in " ++ f.filename] else [])
      else acc)
    []

/-- Security-comment step of the opened-PR sequence (bot.py lines 202-205). -/
def bot_security_actions (files : List FileChange) : List ApiCall :=
  let issues := bot_security_scan files
  if issues ≠ [] then
    [ApiCall.postComment ("🔒 **Security Scan Results:**\n\n"
      ++ String.intercalate "\n" (issues.map (fun i => "- " ++ i)))]
  else []

/-- Embedding of `bot.ai_code_review` (bot.py lines 26-39): nothing without a key; otherwise
the OpenAI response oracle applied to the first 2000 characters of the diff. -/
def bot_ai_review (o : Oracle) (diff : String) : Option String :=
  if o.openaiKey = "" then none else o.aiResponse (strTake 2000 diff)

/-- AI-review step of the opened-PR sequence (bot.py lines 208-213). -/
def bot_ai_actions (o : Oracle) (files : List FileChange) : List ApiCall :=
  if o.openaiKey ≠ "" && files.length ≤ 5 then
    let diff := String.intercalate "\n" ((files.take 3).map (fun f => f.patch.getD ""))
    match bot_ai_review o diff with
    | some review => [ApiCall.postComment ("🤖 **AI Code Review:**\n\n" ++ review)]
    | none => []
  else []

/-- The full `pull_request`/`opened` handler sequence of bot.py (lines 192-213). -/
def bot_pr_opened (o : Oracle) (author : String) : List ApiCall :=
  let files := o.files
  ApiCall.getFiles ::
    (bot_auto_label_actions o files
      ++ auto_assign_reviewers o files author
      ++ bot_welcome_actions o author
      ++ bot_check_req_actions files
      ++ bot_security_actions files
      ++ bot_ai_actions o files)

/-- Issue auto-labels of bot.py (lines 226-239): the handler lowers both the
title and (when truthy) the body, but every keyword test reads only the title.
The `_b` binding mirrors the computed-but-unused `body` variable. -/
def bot_issue_labels (title : String) (body : Option String) : List String :=
  let t := pyLower title
  let _b : String := match body with
    | some s => if !s.isEmpty then pyLower s else ""
    | none => ""
  (if pyInStr "bug" t || pyInStr "error" t || pyInStr "broken" t then ["bug"] else [])
  ++ (if pyInStr "feature" t || pyInStr "enhancement" t then ["enhancement"] else [])
  ++ (if pyInStr "question" t || pyInStr "?" t then ["question"] else [])
  ++ (if pyInStr "help" t || pyInStr "support" t then ["help wanted"] else [])
  ++ (if pyInStr "urgent" t || pyInStr "critical" t then ["priority: high"] else [])

/-- The `issues`/`opened` branch of bot.py (lines 220-242). -/
def bot_issues_opened (ev : WebhookEvent) : List ApiCall :=
  let labels := bot_issue_labels ev.issueTitle ev.issueBody
  if labels ≠ [] then [ApiCall.addLabels labels] else []

/-- Help text posted by the `/help` command of bot.py (lines 255-277). -/
def botHelpText : String :=
  "🤖 **Available Commands:**\n\n**Assignment & Labels:**\n- `/assign @user` - Assign to user\n- `/unassign @user` - Remove assignment\n- `/label bug` - Add label\n- `/unlabel bug` - Remove label\n- `/priority high` - Set priority\n\n**Actions:**\n- `/close` - Close issue/PR\n- `/reopen` - Reopen issue/PR\n- `/lock` - Lock conversation\n- `/unlock` - Unlock conversation\n\n**Info:**\n- `/status` - Show issue/PR status\n- `/changelog` - Generate recent changes\n- `/contributors` - List top contributors\n\n**Fun:**\n- `/joke` - Random dev joke\n- `/motivate` - Motivational quote"

/-- The four inline jokes of the `/joke` branch of bot.py (lines 303-308). -/
def botJokes : List String := JOKES.take 4

/-- The four inline quotes of the `/motivate` branch of bot.py (lines 314-319). -/
def botQuotes : List String := MOTIVATIONAL_QUOTES.take 4

/-- Embedding of `bot.generate_changelog` (bot.py lines 150-159): the first 10 closed PRs,
formatted when `merged_at` is truthy. -/
def generate_changelog (o : Oracle) : String :=
  (o.closedPRs.take 10).foldl
    (fun s pr =>
      if optTruthy pr.mergedAt then
        s ++ "- " ++ pr.title ++ " (#" ++ toString pr.number ++ ") by @" ++ pr.login ++ "\n"
      else s)
    "# Recent Changes\n\n"

/-- The `/label` branch of bot.py (lines 287-291):
`label = comment.split("/label ")[1].strip()` raises `IndexError` when the
separator `"/label "` does not occur in the comment. -/
def bot_label_branch (comment : String) : Except PyErr (List ApiCall) :=
  match (pySplit comment "/label ").get? 1 with
  | none => Except.error PyErr.indexError
  | some rest =>
    let label := pyStrip rest
    Except.ok [ApiCall.addLabels [label],
      ApiCall.postComment ("🏷️ Added label: `" ++ label ++ "`")]

/-- The `issue_comment`/`created` command processing of bot.py (lines 244-323).
Python list indexing (`[0]`, `[1]`) is modelled fallibly. -/
def bot_handle_comment (o : Oracle) (commenter : String) (body : String) :
    Except PyErr (List ApiCall) :=
  let comment := pyStrip body
  if pyStartsWith comment "/" then
    match pySplitWs (pyLower comment) with
    | [] => Except.error PyErr.indexError
    | cmd :: _ =>
      if cmd = "/help" then Except.ok [ApiCall.postComment botHelpText]
      else if pyStartsWith cmd "/assign" then
        if pyContains comment '@' then
          match (pySplit comment "@").get? 1 with
          | none => Except.error PyErr.indexError
          | some afterAt =>
            match pySplitWs afterAt with
            | [] => Except.error PyErr.indexError
            | assignee :: _ =>
              Except.ok [ApiCall.addAssignees [assignee],
                ApiCall.postComment ("✅ Assigned to @" ++ assignee)]
        else Except.ok []
      else if pyStartsWith cmd "/label" then bot_label_branch comment
      else if cmd = "/close" then
        Except.ok [ApiCall.setIssueState "closed",
          ApiCall.postComment ("🔒 Closed by @" ++ commenter)]
      else if cmd = "/changelog" then
        Except.ok [ApiCall.getClosedPRs, ApiCall.postComment (generate_changelog o)]
      else if cmd = "/joke" then
        Except.ok [ApiCall.postComment ("😄 " ++ o.choose botJokes)]
      else if cmd = "/motivate" then
        Except.ok [ApiCall.postComment ("💪 " ++ o.choose botQuotes)]
      else Except.ok []
  else Except.ok []

/-- Thank-you comment on a merged PR (bot.py line 217, github_app.py line 161). -/
def thankMsg (author : String) : String :=
  "🎉 Thanks @" ++ author ++ "! Your contribution has been merged. Great work! 🚀"

/-- The `/webhook` route of bot.py (lines 180-324): dispatch on the
`X-GitHub-Event` header and the payload field `action`, returning the HTTP status
and the trace of platform calls; unhandled Python exceptions surface as errors. -/
def bot_webhook (o : Oracle) (ev : WebhookEvent) : Except PyErr (Nat × List ApiCall) :=
  if ev.eventType = "pull_request" then
    if ev.action = "opened" then Except.ok (200, bot_pr_opened o ev.prAuthor)
    else if ev.action = "closed" ∧ ev.prMerged then
      Except.ok (200, [ApiCall.postComment (thankMsg ev.prAuthor)])
    else Except.ok (200, [])
  else if ev.eventType = "issues" then
    if ev.action = "opened" then Except.ok (200, bot_issues_opened ev)
    else Except.ok (200, [])
  else if ev.eventType = "issue_comment" ∧ ev.action = "created" then
    Except.map (fun acts => (200, acts)) (bot_handle_comment o ev.commenter ev.commentBody)
  else Except.ok (200, [])

/-! ## github_app.py -/

/-- Expression `ext = "." + filename.split(".")[-1] if "." in filename else ""`. -/
def extOf (fn : String) : String :=
  if pyInStr "." fn then "." ++ (pySplit fn ".").getLastD "" else ""

/-- Label contributions of one file in `github_app.auto_label_pr`
(github_app.py lines 58-67): dictionary lookup for the language label, then
every matching content category (independent, not an `elif` chain). -/
def app_file_label_step (acc : List String) (f : FileChange) : List String :=
  let fn := pyLower f.filename
  let ext := extOf fn
  let acc1 := match LANGUAGE_LABELS.lookup ext with
    | some lab => setAdd acc lab
    | none => acc
  CONTENT_LABELS.foldl
    (fun a le =>
      if le.2.any (fun e => pyEndsWith fn e || pyInStr e fn) then setAdd a le.1 else a)
    acc1

/-- Contents of the `labels` set of `github_app.auto_label_pr`, in
first-insertion order, including the `size/...` label (lines 70-72). -/
def app_collect_labels (files : List FileChange) : List String :=
  let base := files.foldl app_file_label_step []
  let lines := sumChanges files
  setAdd base
    (if lines > 500 then "size/large" else if lines > 100 then "size/medium" else "size/small")

/-- Embedding of `github_app.auto_label_pr` (github_app.py lines 52-76). -/
def app_auto_label_actions (o : Oracle) (files : List FileChange) : List ApiCall :=
  let labels := app_collect_labels files
  if labels ≠ [] then [ApiCall.addLabels (o.setOrder labels)] else []

/-- One line of the security-scan comment (github_app.py lines 84-86). -/
def vulnLine (v : Finding) : String :=
  (if v.severity = "high" then "🚨" else "⚠️") ++ " **"
    ++ pyTitle (replaceChar '_' ' ' v.type) ++ "** in `" ++ v.file ++ "`\n"

/-- Embedding of `github_app.security_scan_and_comment` (github_app.py lines 78-90). -/
def app_security_actions (o : Oracle) (files : List FileChange) : List ApiCall :=
  let vulns := scan_for_vulnerabilities o.reSearch files
  if vulns ≠ [] then
    [ApiCall.postComment ("🔒 **Security Scan Results:**\n\n"
      ++ String.join (vulns.map vulnLine)
      ++ "\n💡 Please review these potential security issues before merging.")]
  else []

/-- Embedding of `github_app.ai_code_review` (github_app.py lines 92-113): skipped without a
key or with more than 5 files; a `none` response models the swallowed exception. -/
def app_ai_actions (o : Oracle) (files : List FileChange) : List ApiCall :=
  if o.openaiKey = "" || files.length > 5 then []
  else
    let diff := String.intercalate "\n"
      ((files.take 3).map (fun f => strTake 1000 (f.patch.getD "")))
    match o.aiResponse diff with
    | some review => [ApiCall.postComment ("🤖 **AI Code Review:**\n\n" ++ review)]
    | none => []

/-- The `languages` set of `utils.generate_pr_summary` (utils.py lines 62-66),
in first-insertion order. -/
def summaryLangs (files : List FileChange) : List String :=
  files.foldl
    (fun acc f =>
      let ext := extOf f.filename
      if ext ∈ [".py", ".js", ".ts", ".java", ".go", ".rs", ".rb"] then
        setAdd acc (strDrop 1 ext)
      else acc)
    []

/-- Embedding of `utils.generate_pr_summary` (utils.py lines 48-71); the `pr_title` argument
is accepted but never used by the source. -/
def generate_pr_summary (reSearch : String → String → Bool)
    (files : List FileChange) (_title : String) : String :=
  let complexity := analyze_code_complexity files
  let breaking := detect_breaking_changes reSearch files
  let langs := summaryLangs files
  "📊 **PR Analysis:**\n\n- **Files changed:** " ++ toString complexity.file_count
    ++ "\n- **Lines changed:** " ++ toString complexity.total_lines
    ++ "\n- **Complexity:** " ++ pyTitle complexity.risk_level ++ "\n"
  ++ (if breaking ≠ [] then
        "- ⚠️ **Potential breaking changes in:** "
          ++ String.intercalate ", " (breaking.take 3) ++ "\n"
      else "")
  ++ (if langs ≠ [] then
        "- **Languages:** " ++ String.intercalate ", " (sortStrings langs) ++ "\n"
      else "")

/-- Welcome message of github_app.py (lines 141-148). -/
def appWelcomeMsg (author : String) : String :=
  "🎉 Welcome @" ++ author ++ "! Thanks for your first contribution!\n\n📋 **Quick checklist:**\n- [ ] Tests added/updated\n- [ ] Documentation updated  \n- [ ] Code follows project style\n\n💡 Use `/help` for available commands. Thanks for contributing! 🚀"

/-- The `pull_request`/`opened` handler sequence of github_app.py (lines 131-158). -/
def app_pr_opened (o : Oracle) (author title : String) : List ApiCall :=
  let files := o.files
  ApiCall.getFiles ::
    (app_auto_label_actions o files
      ++ app_security_actions o files
      ++ (ApiCall.getPRsByAuthor author ::
          (if o.prsByAuthorCount = 1 then [ApiCall.postComment (appWelcomeMsg author)] else []))
      ++ app_ai_actions o files
      ++ [ApiCall.postComment (generate_pr_summary o.reSearch files title)])

/-- Issue auto-labels of github_app.py (lines 168-179): keyword scan of the
lower-cased title only (the body is never read). -/
def app_issue_labels (title : String) : List String :=
  let t := pyLower title
  (if ["bug", "error", "broken", "crash"].any (fun w => pyInStr w t) then ["bug"] else [])
  ++ (if ["feature", "enhancement", "add"].any (fun w => pyInStr w t) then ["enhancement"] else [])
  ++ (if ["question", "?", "how"].any (fun w => pyInStr w t) then ["question"] else [])
  ++ (if ["urgent", "critical", "important"].any (fun w => pyInStr w t) then ["priority: high"] else [])

/-- Help text of the `/help` command of github_app.py (lines 194-209). -/
def appHelpText : String :=
  "🤖 **Available Commands:**\n\n**Management:**\n• `/assign @user` - Assign to user\n• `/label <name>` - Add label  \n• `/close` - Close issue/PR\n• `/priority high` - Set priority\n\n**Info:**\n• `/changelog` - Recent changes\n• `/contributors` - Top contributors\n• `/status` - Current status\n\n**Fun:**\n• `/joke` - Programming humor\n• `/motivate` - Inspiration"

/-- Text of the `/changelog` reply of github_app.py (lines 228-232): 10 fetched, first 5
formatted with `•` bullets when `merged_at` is truthy. -/
def app_changelog (o : Oracle) : String :=
  (o.closedPRs.take 5).foldl
    (fun s pr =>
      if optTruthy pr.mergedAt then
        s ++ "• " ++ pr.title ++ " (#" ++ toString pr.number ++ ") by @" ++ pr.login ++ "\n"
      else s)
    "# Recent Changes\n\n"

/-- The `/label` branch of github_app.py (lines 218-221): same fallible
`comment.split("/label ")[1]` as bot.py, no confirmation comment. -/
def app_label_branch (comment : String) : Except PyErr (List ApiCall) :=
  match (pySplit comment "/label ").get? 1 with
  | none => Except.error PyErr.indexError
  | some rest => Except.ok [ApiCall.addLabels [pyStrip rest]]

/-- The `issue_comment`/`created` command processing of github_app.py
(lines 185-242).  Note the `/assign` guard conjoins the prefix test with the
`"@" in comment` test in a single `elif`. -/
def app_handle_comment (o : Oracle) (body : String) : Except PyErr (List ApiCall) :=
  let comment := pyStrip body
  if pyStartsWith comment "/" then
    match pySplitWs (pyLower comment) with
    | [] => Except.error PyErr.indexError
    | cmd :: _ =>
      if cmd = "/help" then Except.ok [ApiCall.postComment appHelpText]
      else if pyStartsWith cmd "/assign" && pyContains comment '@' then
        match (pySplit comment "@").get? 1 with
        | none => Except.error PyErr.indexError
        | some afterAt =>
          match pySplitWs afterAt with
          | [] => Except.error PyErr.indexError
          | assignee :: _ => Except.ok [ApiCall.addAssignees [assignee]]
      else if pyStartsWith cmd "/label" then app_label_branch comment
      else if cmd = "/close" then Except.ok [ApiCall.setIssueState "closed"]
      else if cmd = "/changelog" then
        Except.ok [ApiCall.getClosedPRs, ApiCall.postComment (app_changelog o)]
      else if cmd = "/joke" then
        Except.ok [ApiCall.postComment ("😄 " ++ o.choose JOKES)]
      else if cmd = "/motivate" then
        Except.ok [ApiCall.postComment ("💪 " ++ o.choose MOTIVATIONAL_QUOTES)]
      else Except.ok []
  else Except.ok []

/-- The `/webhook` route of github_app.py (lines 115-244): a missing
installation id yields status 400 before any dispatch. -/
def app_webhook (o : Oracle) (ev : WebhookEvent) : Except PyErr (Nat × List ApiCall) :=
  match ev.installationId with
  | none => Except.ok (400, [])
  | some _ =>
    if ev.eventType = "pull_request" then
      if ev.action = "opened" then
        Except.ok (200, app_pr_opened o ev.prAuthor ev.prTitle)
      else if ev.action = "closed" ∧ ev.prMerged then
        Except.ok (200, [ApiCall.postComment (thankMsg ev.prAuthor)])
      else Except.ok (200, [])
    else if ev.eventType = "issues" ∧ ev.action = "opened" then
      Except.ok (200,
        let labels := app_issue_labels ev.issueTitle
        if labels ≠ [] then [ApiCall.addLabels labels] else [])
    else if ev.eventType = "issue_comment" ∧ ev.action = "created" then
      Except.map (fun acts => (200, acts)) (app_handle_comment o ev.commentBody)
    else Except.ok (200, [])

/-- A trivial oracle instantiation used by concrete witnesses. -/
def defaultOracle : Oracle :=
  { files := []
    contentsTruthy := fun _ => true
    commits := fun _ => []
    prsByAuthorCount := 0
    repoName := none
    closedPRs := []
    setOrder := id
    choose := fun _ => ""
    openaiKey := ""
    aiResponse := fun _ => none
    reSearch := fun _ _ => false }

/-! ## Spec-side formulations

These definitions follow the words of the specification (not the source) and are
compared with the source embeddings in the refinement theorems below. -/

/-- Modelled from the spec: "for each file with patch text, lower-case the
patch, then for every (category, pattern) in the security catalog, emit a
finding if pattern matches; iterate files in input order, categories in catalog
order, patterns in catalog order". -/
def scanSpecOrdered (reSearch : String → String → Bool)
    (files : List FileChange) : List Finding :=
  (files.filter patchTruthy).flatMap (fun f =>
    SECURITY_PATTERNS.flatMap (fun cp =>
      (cp.2.filter (fun pat => reSearch pat (pyLower (patchText f)))).map
        (fun _ => mkFinding cp.1 f.filename)))

/-- A keyword-labelling rule: a predicate on the lower-cased title, and the
label the rule adds when it fires. -/
def keywordLabels (rules : List ((String → Bool) × String)) (t : String) : List String :=
  (rules.filter (fun r => r.1 t)).map (·.2)

/-- The five independent labelling rules of the `issues`/`opened` branch of bot.py,
as (trigger, label) pairs. -/
def botIssueRules : List ((String → Bool) × String) :=
  [(fun t => pyInStr "bug" t || pyInStr "error" t || pyInStr "broken" t, "bug"),
   (fun t => pyInStr "feature" t || pyInStr "enhancement" t, "enhancement"),
   (fun t => pyInStr "question" t || pyInStr "?" t, "question"),
   (fun t => pyInStr "help" t || pyInStr "support" t, "help wanted"),
   (fun t => pyInStr "urgent" t || pyInStr "critical" t, "priority: high")]

/-- The four independent labelling rules of the `issues`/`opened` branch of github_app.py,
branch, as (trigger, label) pairs. -/
def appIssueRules : List ((String → Bool) × String) :=
  [(fun t => ["bug", "error", "broken", "crash"].any (fun w => pyInStr w t), "bug"),
   (fun t => ["feature", "enhancement", "add"].any (fun w => pyInStr w t), "enhancement"),
   (fun t => ["question", "?", "how"].any (fun w => pyInStr w t), "question"),
   (fun t => ["urgent", "critical", "important"].any (fun w => pyInStr w t), "priority: high")]

/-- Concrete scenario for the reviewer-ordering counterexample: two files whose
histories contribute the candidates "bob" then "alice" (in first-encounter
order), and a set-iteration order that happens to list the two-element set in
the opposite order — a legitimate outcome of the unordered Python `set`. -/
def c4Oracle : Oracle :=
  { defaultOracle with
    files := [⟨"a.py", 1, none⟩, ⟨"b.py", 1, none⟩]
    commits := fun p => if p = "a.py" then [⟨some "bob"⟩] else [⟨some "alice"⟩]
    setOrder := List.reverse }

/-! ## Helper lemmas -/

/-- A fold that conditionally appends one element is `filter` then `map`. -/
theorem foldl_guard_append {α β : Type} (p : α → Bool) (g : α → β) :
    ∀ (l : List α) (acc : List β),
      l.foldl (fun a x => if p x then a ++ [g x] else a) acc = acc ++ (l.filter p).map g := by
  intro l
  induction l with
  | nil => intro acc; simp
  | cons x xs ih =>
    intro acc
    by_cases h : p x
    · simp [h, ih]
    · simp [h, ih]

/-- A fold that appends a block per element is `flatMap`. -/
theorem foldl_append_flatMap {α β : Type} (h : α → List β) :
    ∀ (l : List α) (acc : List β),
      l.foldl (fun a x => a ++ h x) acc = acc ++ l.flatMap h := by
  intro l
  induction l with
  | nil => intro acc; simp
  | cons x xs ih => intro acc; simp [ih]

/-- Guarded `flatMap` is `filter` then `flatMap`. -/
theorem flatMap_guard_filter {α β : Type} (p : α → Bool) (h : α → List β) :
    ∀ l : List α,
      (l.flatMap (fun x => if p x then h x else [])) = (l.filter p).flatMap h := by
  intro l
  induction l with
  | nil => simp
  | cons x xs ih =>
    by_cases hp : p x
    · simp [hp, ih]
    · simp [hp, ih]

/-- Lemma: `setAdd` only ever adds the given element. -/
theorem mem_setAdd {acc : List String} {x y : String} (h : y ∈ setAdd acc x) :
    y ∈ acc ∨ y = x := by
  by_cases hx : x ∈ acc
  · exact Or.inl (by simpa [setAdd, hx] using h)
  · have h' : y ∈ acc ++ [x] := by simpa [setAdd, hx] using h
    rcases List.mem_append.mp h' with h1 | h1
    · exact Or.inl h1
    · exact Or.inr (by simpa using h1)

/-- Lemma: `setAdd` preserves duplicate-freedom. -/
theorem nodup_setAdd (acc : List String) (x : String) (h : acc.Nodup) :
    (setAdd acc x).Nodup := by
  by_cases hx : x ∈ acc
  · simpa [setAdd, hx] using h
  · simp [setAdd, hx, List.nodup_append, h]

/-- Lemma: `setAdd` keeps every existing member. -/
theorem mem_setAdd_of_mem {acc : List String} {x y : String} (h : y ∈ acc) :
    y ∈ setAdd acc x := by
  by_cases hx : x ∈ acc <;> simp [setAdd, hx, h]

/-- Membership after folding commits into the reviewer set comes from the
accumulator or from a commit author different from the PR author. -/
theorem mem_foldl_addLogin (author : String) (commits : List CommitInfo) :
    ∀ (acc : List String) (x : String),
      x ∈ commits.foldl (addLogin author) acc →
      x ∈ acc ∨ ∃ c ∈ commits, c.author = some x ∧ x ≠ author := by
  induction commits with
  | nil => intro acc x h; exact Or.inl h
  | cons c cs ih =>
    intro acc x h
    simp only [List.foldl_cons] at h
    rcases ih _ x h with h1 | ⟨c', hc', hx, hxa⟩
    · rcases hca : c.author with _ | login
      · exact Or.inl (by simpa [addLogin, hca] using h1)
      · by_cases hla : login = author
        · exact Or.inl (by simpa [addLogin, hca, hla] using h1)
        · have h2 : x ∈ setAdd acc login := by simpa [addLogin, hca, hla] using h1
          rcases mem_setAdd h2 with h3 | h3
          · exact Or.inl h3
          · exact Or.inr ⟨c, List.mem_cons_self c cs, by rw [hca, h3], h3 ▸ hla⟩
    · exact Or.inr ⟨c', List.mem_cons_of_mem c hc', hx, hxa⟩

/-- Folding commits into the reviewer set preserves duplicate-freedom. -/
theorem nodup_foldl_addLogin (author : String) (commits : List CommitInfo) :
    ∀ acc : List String, acc.Nodup → (commits.foldl (addLogin author) acc).Nodup := by
  induction commits with
  | nil => intro acc h; exact h
  | cons c cs ih =>
    intro acc h
    simp only [List.foldl_cons]
    apply ih
    rcases hca : c.author with _ | login
    · simpa [addLogin, hca] using h
    · by_cases hla : login = author
      · simpa [addLogin, hca, hla] using h
      · simpa [addLogin, hca, hla] using nodup_setAdd acc login h

/-- Membership in the reviewer set after processing a list of files. -/
theorem mem_foldl_fileReviewStep (o : Oracle) (author : String) (files : List FileChange) :
    ∀ (acc : List String) (x : String),
      x ∈ files.foldl (fileReviewStep o author) acc →
      x ∈ acc ∨ ∃ f ∈ files, o.contentsTruthy f.filename = true ∧
        ∃ c ∈ (o.commits f.filename).take 3, c.author = some x ∧ x ≠ author := by
  induction files with
  | nil => intro acc x h; exact Or.inl h
  | cons f fs ih =>
    intro acc x h
    simp only [List.foldl_cons] at h
    rcases ih _ x h with h1 | ⟨f', hf', hct, c', hc', hx, hxa⟩
    · by_cases hc : o.contentsTruthy f.filename
      · have h2 : x ∈ ((o.commits f.filename).take 3).foldl (addLogin author) acc := by
          simpa [fileReviewStep, hc] using h1
        rcases mem_foldl_addLogin author _ acc x h2 with h3 | ⟨c, hcm, hca, hxa⟩
        · exact Or.inl h3
        · exact Or.inr ⟨f, List.mem_cons_self f fs, hc, c, hcm, hca, hxa⟩
      · exact Or.inl (by simpa [fileReviewStep, hc] using h1)
    · exact Or.inr ⟨f', List.mem_cons_of_mem f hf', hct, c', hc', hx, hxa⟩

/-- The reviewer set stays duplicate-free across files. -/
theorem nodup_foldl_fileReviewStep (o : Oracle) (author : String) (files : List FileChange) :
    ∀ acc : List String, acc.Nodup → (files.foldl (fileReviewStep o author) acc).Nodup := by
  induction files with
  | nil => intro acc h; exact h
  | cons f fs ih =>
    intro acc h
    simp only [List.foldl_cons]
    apply ih
    by_cases hc : o.contentsTruthy f.filename
    · simpa [fileReviewStep, hc] using nodup_foldl_addLogin author _ acc h
    · simpa [fileReviewStep, hc] using h

/-- The PR author is never in the accumulated reviewer set. -/
theorem author_not_mem_reviewerSetList (o : Oracle) (files : List FileChange) (author : String) :
    author ∉ reviewerSetList o files author := by
  intro h
  rcases mem_foldl_fileReviewStep o author files [] author h with h1 | ⟨_, _, _, _, _, _, hne⟩
  · simp at h1
  · exact hne rfl

/-- The accumulated reviewer set is duplicate-free. -/
theorem reviewerSetList_nodup (o : Oracle) (files : List FileChange) (author : String) :
    (reviewerSetList o files author).Nodup :=
  nodup_foldl_fileReviewStep o author files [] List.nodup_nil

/-- A token with prefix `/label` is never the exact token `/help`. -/
theorem label_prefix_ne_help (cmd : String) (h : pyStartsWith cmd "/label" = true) :
    cmd ≠ "/help" := by
  intro he
  subst he
  exact absurd h (by decide)

/-- A token with prefix `/assign` is never the exact token `/help`. -/
theorem assign_prefix_ne_help (cmd : String) (h : pyStartsWith cmd "/assign" = true) :
    cmd ≠ "/help" := by
  intro he
  subst he
  exact absurd h (by decide)

/-- A token with prefix `/label` does not have prefix `/assign` (second character
`l` versus `a`), so the `elif` chain reaches the label branch. -/
theorem label_prefix_not_assign (cmd : String) (h : pyStartsWith cmd "/label" = true) :
    pyStartsWith cmd "/assign" = false := by
  obtain ⟨d⟩ := cmd
  rcases d with _ | ⟨c0, _ | ⟨c1, rest⟩⟩
  · exact absurd h (by decide)
  · exact absurd h (by
      simp only [pyStartsWith, show ("/label".data) = ['/', 'l', 'a', 'b', 'e', 'l'] from rfl, leadChars, Bool.and_eq_true]
      intro hcon
      exact absurd hcon.2 (by simp [leadChars]))
  · simp only [pyStartsWith, show ("/label".data) = ['/', 'l', 'a', 'b', 'e', 'l'] from rfl,
      leadChars, Bool.and_eq_true, beq_iff_eq] at h
    obtain ⟨h0, h1, -⟩ := h
    subst h0
    subst h1
    simp only [pyStartsWith, show ("/assign".data) = ['/', 'a', 's', 's', 'i', 'g', 'n'] from rfl,
      leadChars]
    rw [show (('a' : Char) == 'l') = false from rfl]
    simp

/-! ## Claim theorems -/

/-- C1: For every FileChange sequence, `analyze_code_complexity` returns
score = (3 if totalLines>500 else 2 if totalLines>200 else 1 if totalLines>50
else 0) + (2 if fileCount>10 else 1 if fileCount>5 else 0), and riskLevel =
high if score≥4, medium if score≥2, else low; in particular totalLines=501
with fileCount≤5 gives score 3 and riskLevel medium, while totalLines=501 with
fileCount=6 gives score 4 and riskLevel high. -/
theorem complexity_score_formula (files : List FileChange) :
    (analyze_code_complexity files).score =
      (if (analyze_code_complexity files).total_lines > 500 then 3
       else if (analyze_code_complexity files).total_lines > 200 then 2
       else if (analyze_code_complexity files).total_lines > 50 then 1 else 0)
      + (if (analyze_code_complexity files).file_count > 10 then 2
         else if (analyze_code_complexity files).file_count > 5 then 1 else 0)
    ∧ (analyze_code_complexity files).risk_level =
        (if (analyze_code_complexity files).score ≥ 4 then "high"
         else if (analyze_code_complexity files).score ≥ 2 then "medium" else "low")
    ∧ ((analyze_code_complexity files).total_lines = 501 →
        (analyze_code_complexity files).file_count ≤ 5 →
        (analyze_code_complexity files).score = 3 ∧
          (analyze_code_complexity files).risk_level = "medium")
    ∧ ((analyze_code_complexity files).total_lines = 501 →
        (analyze_code_complexity files).file_count = 6 →
        (analyze_code_complexity files).score = 4 ∧
          (analyze_code_complexity files).risk_level = "high") := by
  refine ⟨rfl, rfl, ?_, ?_⟩
  · intro h1 h2
    simp only [analyze_code_complexity] at h1 h2 ⊢
    rw [h1]
    constructor
    · split_ifs <;> omega
    · split_ifs <;> first | rfl | omega
  · intro h1 h2
    simp only [analyze_code_complexity] at h1 h2 ⊢
    rw [h1]
    constructor
    · split_ifs <;> omega
    · split_ifs <;> first | rfl | omega

/-- Witness for C1 at six files totalling 501 changed lines. -/
theorem complexity_score_formula_witness :
    (analyze_code_complexity
        [⟨"a", 496, none⟩, ⟨"b", 1, none⟩, ⟨"c", 1, none⟩,
         ⟨"d", 1, none⟩, ⟨"e", 1, none⟩, ⟨"f", 1, none⟩]).score = 4
    ∧ (analyze_code_complexity
        [⟨"a", 496, none⟩, ⟨"b", 1, none⟩, ⟨"c", 1, none⟩,
         ⟨"d", 1, none⟩, ⟨"e", 1, none⟩, ⟨"f", 1, none⟩]).risk_level = "high" :=
  (complexity_score_formula _).2.2.2 (by decide) (by decide)

/-- C9: For every FileChange sequence, a high risk rating forces both
totalLines > 200 and fileCount > 5, and the score never exceeds 5. -/
theorem complexity_high_risk_invariant (files : List FileChange) :
    ((analyze_code_complexity files).risk_level = "high" →
      (analyze_code_complexity files).total_lines > 200 ∧
        (analyze_code_complexity files).file_count > 5)
    ∧ (analyze_code_complexity files).score ≤ 5 := by
  constructor
  · intro h
    simp only [analyze_code_complexity] at h ⊢
    split_ifs at h <;> first | omega | exact absurd h (by decide)
  · simp only [analyze_code_complexity]
    split_ifs <;> omega

/-- Witness for C9 at eleven files of 100 changed lines each (score 5, high). -/
theorem complexity_high_risk_invariant_witness :
    (analyze_code_complexity
        [⟨"f1", 100, none⟩, ⟨"f2", 100, none⟩, ⟨"f3", 100, none⟩, ⟨"f4", 100, none⟩,
         ⟨"f5", 100, none⟩, ⟨"f6", 100, none⟩, ⟨"f7", 100, none⟩, ⟨"f8", 100, none⟩,
         ⟨"f9", 100, none⟩, ⟨"f10", 100, none⟩, ⟨"f11", 100, none⟩]).total_lines > 200
    ∧ (analyze_code_complexity
        [⟨"f1", 100, none⟩, ⟨"f2", 100, none⟩, ⟨"f3", 100, none⟩, ⟨"f4", 100, none⟩,
         ⟨"f5", 100, none⟩, ⟨"f6", 100, none⟩, ⟨"f7", 100, none⟩, ⟨"f8", 100, none⟩,
         ⟨"f9", 100, none⟩, ⟨"f10", 100, none⟩, ⟨"f11", 100, none⟩]).file_count > 5 :=
  (complexity_high_risk_invariant _).1 (by decide)

/-- C2 (code bug): on an issue comment whose stripped body is the bare command
`/label`, both handlers evaluate `comment.split("/label ")[1]`; the separator
`"/label "` does not occur, the list has one element, and the indexing raises
`IndexError` — the handler crashes instead of performing the specified no-op. -/
theorem bare_label_command_raises :
    bot_handle_comment defaultOracle "someone" "/label" = Except.error PyErr.indexError
    ∧ app_handle_comment defaultOracle "/label" = Except.error PyErr.indexError :=
  ⟨rfl, rfl⟩

/-- C5: `scan_for_vulnerabilities` emits one finding per (file, category,
pattern) whose pattern matches the lower-cased patch (patch-less files skipped,
no deduplication), ordered files-then-categories-then-patterns, and severity is
`high` iff the category is `hardcoded_secrets`. -/
theorem scan_vulnerabilities_ordered (reSearch : String → String → Bool)
    (files : List FileChange) :
    scan_for_vulnerabilities reSearch files = scanSpecOrdered reSearch files
    ∧ ∀ v ∈ scan_for_vulnerabilities reSearch files,
        (v.severity = "high" ↔ v.type = "hardcoded_secrets") := by
  have hpat : ∀ (content fname cat : String) (pats : List String) (acc : List Finding),
      patFold reSearch content fname cat pats acc
        = acc ++ (pats.filter (fun pat => reSearch pat content)).map
            (fun _ => mkFinding cat fname) := by
    intro content fname cat pats
    induction pats with
    | nil => intro acc; simp [patFold]
    | cons p ps ih =>
      intro acc
      have hstep : patFold reSearch content fname cat (p :: ps) acc
          = patFold reSearch content fname cat ps
              (if reSearch p content then acc ++ [mkFinding cat fname] else acc) := rfl
      rw [hstep, ih]
      by_cases h : reSearch p content
      · simp [h, List.filter_cons]
      · simp [h, List.filter_cons]
  have hcat : ∀ (content fname : String) (cps : List (String × List String))
      (acc : List Finding),
      cps.foldl (fun acc2 cp => patFold reSearch content fname cp.1 cp.2 acc2) acc
        = acc ++ cps.flatMap (fun cp =>
            (cp.2.filter (fun pat => reSearch pat content)).map
              (fun _ => mkFinding cp.1 fname)) := by
    intro content fname cps
    induction cps with
    | nil => intro acc; simp
    | cons cp cps ih =>
      intro acc
      simp only [List.foldl_cons]
      rw [hpat, ih]
      simp
  have hcatFold : ∀ (content fname : String) (acc : List Finding),
      catFold reSearch content fname acc
        = acc ++ SECURITY_PATTERNS.flatMap (fun cp =>
            (cp.2.filter (fun pat => reSearch pat content)).map
              (fun _ => mkFinding cp.1 fname)) :=
    fun content fname acc => hcat content fname SECURITY_PATTERNS acc
  have hkey : ∀ (fs : List FileChange) (acc : List Finding),
      fs.foldl
        (fun acc f =>
          if patchTruthy f then catFold reSearch (pyLower (patchText f)) f.filename acc
          else acc) acc
        = acc ++ scanSpecOrdered reSearch fs := by
    intro fs
    induction fs with
    | nil => intro acc; simp [scanSpecOrdered]
    | cons f fs ih =>
      intro acc
      simp only [List.foldl_cons]
      rw [ih]
      by_cases hp : patchTruthy f
      · rw [if_pos hp, hcatFold]
        simp [scanSpecOrdered, List.filter_cons, hp]
      · rw [if_neg hp]
        simp [scanSpecOrdered, List.filter_cons, hp]
  have heq : scan_for_vulnerabilities reSearch files = scanSpecOrdered reSearch files := by
    have h := hkey files []
    simpa [scan_for_vulnerabilities] using h
  refine ⟨heq, ?_⟩
  intro v hv
  rw [heq] at hv
  simp only [scanSpecOrdered, List.mem_flatMap, List.mem_map, List.mem_filter] at hv
  obtain ⟨f, -, cp, hcp, pat, -, hveq⟩ := hv
  subst hveq
  fin_cases hcp <;> simp [mkFinding]

/-- Witness for C5: an always-matching regex engine on one patched file; the
high-severity finding present in the output has category `hardcoded_secrets`. -/
theorem scan_vulnerabilities_ordered_witness :
    scan_for_vulnerabilities (fun _ _ => true) [⟨"x.py", 1, some "code"⟩]
      = scanSpecOrdered (fun _ _ => true) [⟨"x.py", 1, some "code"⟩]
    ∧ ((mkFinding "hardcoded_secrets" "x.py").severity = "high"
        ↔ (mkFinding "hardcoded_secrets" "x.py").type = "hardcoded_secrets") :=
  ⟨(scan_vulnerabilities_ordered (fun _ _ => true) [⟨"x.py", 1, some "code"⟩]).1,
   (scan_vulnerabilities_ordered (fun _ _ => true) [⟨"x.py", 1, some "code"⟩]).2
     (mkFinding "hardcoded_secrets" "x.py") (by decide)⟩

/-- C7: `detect_breaking_changes` returns exactly the filenames of the files
with a truthy patch matching at least one breaking-change pattern (the `break`
makes the per-file test `any`), one entry per qualifying file, output order =
input order; under distinct input paths the output has no duplicates. -/
theorem detect_breaking_filter (reSearch : String → String → Bool)
    (files : List FileChange)
    (hnd : (files.map (fun f => f.filename)).Nodup) :
    detect_breaking_changes reSearch files
      = (files.filter (fun f =>
          patchTruthy f && breaking_patterns.any (fun pat => reSearch pat (patchText f)))).map
          (fun f => f.filename)
    ∧ (detect_breaking_changes reSearch files).Nodup := by
  have heq : detect_breaking_changes reSearch files
      = (files.filter (fun f =>
          patchTruthy f && breaking_patterns.any (fun pat => reSearch pat (patchText f)))).map
          (fun f => f.filename) := by
    have h := foldl_guard_append
      (fun f => patchTruthy f && breaking_patterns.any (fun pat => reSearch pat (patchText f)))
      (fun f : FileChange => f.filename) files []
    simpa [detect_breaking_changes] using h
  refine ⟨heq, ?_⟩
  rw [heq]
  exact List.Nodup.sublist ((List.filter_sublist _).map _) hnd

/-- Witness for C7: two distinctly named files, one with a patch; under an
always-matching engine only the patched file is reported, without duplicates. -/
theorem detect_breaking_filter_witness :
    detect_breaking_changes (fun _ _ => true) [⟨"a.py", 3, some "x"⟩, ⟨"b.py", 1, none⟩]
      = ["a.py"]
    ∧ (detect_breaking_changes (fun _ _ => true)
        [⟨"a.py", 3, some "x"⟩, ⟨"b.py", 1, none⟩]).Nodup := by
  have h := detect_breaking_filter (fun _ _ => true)
    [⟨"a.py", 3, some "x"⟩, ⟨"b.py", 1, none⟩] (by decide)
  exact ⟨h.1.trans (by decide), h.2⟩

/-- A token with prefix `/assign` does not have prefix `/label` (second
character `a` versus `l`). -/
theorem assign_prefix_not_label (cmd : String) (h : pyStartsWith cmd "/assign" = true) :
    pyStartsWith cmd "/label" = false := by
  obtain ⟨d⟩ := cmd
  rcases d with _ | ⟨c0, _ | ⟨c1, rest⟩⟩
  · exact absurd h (by decide)
  · exact absurd h (by
      simp only [pyStartsWith, show ("/assign".data) = ['/', 'a', 's', 's', 'i', 'g', 'n'] from rfl, leadChars, Bool.and_eq_true]
      intro hcon
      exact absurd hcon.2 (by simp [leadChars]))
  · simp only [pyStartsWith, show ("/assign".data) = ['/', 'a', 's', 's', 'i', 'g', 'n'] from rfl,
      leadChars, Bool.and_eq_true, beq_iff_eq] at h
    obtain ⟨h0, h1, -⟩ := h
    subst h0
    subst h1
    simp only [pyStartsWith, show ("/label".data) = ['/', 'l', 'a', 'b', 'e', 'l'] from rfl,
      leadChars]
    rw [show (('l' : Char) == 'a') = false from rfl]
    simp

/-- A token with prefix `/assign` equals none of the exact-match commands of the
`elif` chains. -/
theorem assign_prefix_excludes (cmd : String) (h : pyStartsWith cmd "/assign" = true) :
    cmd ≠ "/help" ∧ cmd ≠ "/close" ∧ cmd ≠ "/changelog" ∧ cmd ≠ "/joke" ∧ cmd ≠ "/motivate" := by
  refine ⟨?_, ?_, ?_, ?_, ?_⟩ <;> (intro he; subst he; exact absurd h (by decide))

/-- C3 counterexample: an issue titled "App crashes on startup" whose body
contains the word "bug".  The claim predicts the label `bug` (from `crash` in
the title and from `bug` in the scanned body); the bot.py handler emits no label
at all — its bug keywords are only `bug`/`error`/`broken` and it never reads
the body. -/
theorem issue_labels_counterexample :
    bot_issue_labels "App crashes on startup" (some "this bug is reproducible") = []
    ∧ "bug" ∉ bot_issue_labels "App crashes on startup" (some "this bug is reproducible") := by
  constructor
  · decide
  · decide

/-- C3 amended: issue auto-labels are a keyword scan of the lower-cased title
only (the body, though read into a variable in bot.py, is never consulted);
each rule fires independently and adds its one label; the bug keywords are
`bug`/`error`/`broken` in bot.py and `bug`/`error`/`broken`/`crash` in
github_app.py, so a title containing `crash` yields `bug` only in the
github_app handler. -/
theorem issue_labels_title_only (title : String) (body : Option String) :
    bot_issue_labels title body = keywordLabels botIssueRules (pyLower title)
    ∧ app_issue_labels title = keywordLabels appIssueRules (pyLower title)
    ∧ bot_issue_labels title body = bot_issue_labels title none
    ∧ (pyInStr "crash" (pyLower title) = true → "bug" ∈ app_issue_labels title) := by
  refine ⟨?_, ?_, rfl, ?_⟩
  · simp only [bot_issue_labels, keywordLabels, botIssueRules, List.filter_cons, List.filter_nil]
    split_ifs <;> simp_all
  · simp only [app_issue_labels, keywordLabels, appIssueRules, List.filter_cons, List.filter_nil]
    split_ifs <;> simp_all
  · intro h
    simp [app_issue_labels, h]

/-- Witness for C3 (amended): a title containing `crash` gets the `bug` label
from the github_app handler. -/
theorem issue_labels_title_only_witness :
    "bug" ∈ app_issue_labels "Crash when saving" :=
  (issue_labels_title_only "Crash when saving" none).2.2.2 (by decide)

/-- C4 counterexample: with files `a.py` then `b.py`, the candidates are first
encountered in the order `bob`, `alice` (that is `reviewerSetList`, the contents
of the set in first-insertion order).  A set iteration that lists the two-element
set in the opposite order — a permutation, hence a legitimate outcome of
the unordered Python `set` — makes the posted list `["alice", "bob"]`, so the
requested reviewer list does not preserve first-encounter order. -/
theorem reviewer_order_counterexample :
    reviewerSetList c4Oracle c4Oracle.files "zoe" = ["bob", "alice"]
    ∧ List.Perm (c4Oracle.setOrder (reviewerSetList c4Oracle c4Oracle.files "zoe"))
        (reviewerSetList c4Oracle c4Oracle.files "zoe")
    ∧ requestedReviewers c4Oracle c4Oracle.files "zoe" = ["alice", "bob"]
    ∧ requestedReviewers c4Oracle c4Oracle.files "zoe"
        ≠ reviewerSetList c4Oracle c4Oracle.files "zoe" :=
  ⟨by decide, List.reverse_perm _, by decide, by decide⟩

/-- C4 amended: whenever the set-iteration oracle returns a permutation of the
accumulated reviewer set (as the Python `list(set)` call always does), the requested
reviewer list has at most 3 entries, never contains the PR author, has no
duplicates, and contains only authors of the first 3 of the platform-returned
commits of some changed file whose contents lookup was truthy; its order is
that unspecified permutation, not necessarily first-encounter order. -/
theorem requested_reviewers_properties (o : Oracle) (files : List FileChange) (author : String)
    (hperm : List.Perm (o.setOrder (reviewerSetList o files author))
      (reviewerSetList o files author)) :
    (requestedReviewers o files author).length ≤ 3
    ∧ author ∉ requestedReviewers o files author
    ∧ (requestedReviewers o files author).Nodup
    ∧ ∀ r ∈ requestedReviewers o files author,
        ∃ f ∈ files, o.contentsTruthy f.filename = true ∧
          ∃ c ∈ (o.commits f.filename).take 3, c.author = some r := by
  have hsub : ∀ r, r ∈ requestedReviewers o files author →
      r ∈ reviewerSetList o files author := by
    intro r hr
    exact hperm.mem_iff.mp (List.take_subset 3 _ hr)
  refine ⟨?_, ?_, ?_, ?_⟩
  · exact List.length_take_le 3 _
  · intro h
    exact author_not_mem_reviewerSetList o files author (hsub author h)
  · have h1 : (o.setOrder (reviewerSetList o files author)).Nodup :=
      hperm.nodup_iff.mpr (reviewerSetList_nodup o files author)
    exact List.Nodup.sublist (List.take_sublist 3 _) h1
  · intro r hr
    rcases mem_foldl_fileReviewStep o author files [] r (hsub r hr) with h1 | ⟨f, hf, hct, c, hc, hca, -⟩
    · simp at h1
    · exact ⟨f, hf, hct, c, hc, hca⟩

/-- Witness for C4 (amended) at a one-file, one-commit scenario with the
identity set order. -/
theorem requested_reviewers_properties_witness :
    (requestedReviewers { defaultOracle with commits := fun _ => [⟨some "ann"⟩] }
        [⟨"m.py", 2, none⟩] "zed").length ≤ 3
    ∧ "zed" ∉ requestedReviewers { defaultOracle with commits := fun _ => [⟨some "ann"⟩] }
        [⟨"m.py", 2, none⟩] "zed" :=
  have h := requested_reviewers_properties
    { defaultOracle with commits := fun _ => [⟨some "ann"⟩] }
    [⟨"m.py", 2, none⟩] "zed" (List.Perm.refl _)
  ⟨h.1, h.2.1⟩

/-- C6 counterexample: the comment `/assign @` contains `@`, yet no assignee is
added — `comment.split("@")[1]` is the empty string and indexing `[0]` into the
whitespace-split of the empty string raises
`IndexError` in both handlers, so the claimed extraction does not happen. -/
theorem assign_bare_at_crashes :
    bot_handle_comment defaultOracle "u" "/assign @" = Except.error PyErr.indexError
    ∧ app_handle_comment defaultOracle "/assign @" = Except.error PyErr.indexError :=
  ⟨rfl, rfl⟩

/-- C6 amended: for a created issue comment whose first lower-cased token has
prefix `/assign`: with no `@` in the body, nothing happens; with an `@`, the
assignee is the first whitespace-delimited token of the segment between the
first `@` and the next `@` (or end of body) — leading whitespace skipped,
trailing text ignored; when that segment holds no token the handler raises
`IndexError` instead of assigning. -/
theorem assign_command_extraction (o : Oracle) (commenter body : String)
    (cmd : String) (tl : List String)
    (hs : pyStartsWith (pyStrip body) "/" = true)
    (hsplit : pySplitWs (pyLower (pyStrip body)) = cmd :: tl)
    (hcmd : pyStartsWith cmd "/assign" = true) :
    (pyContains (pyStrip body) '@' = false →
      bot_handle_comment o commenter body = Except.ok []
      ∧ app_handle_comment o body = Except.ok [])
    ∧ (∀ seg tok toks,
        pyContains (pyStrip body) '@' = true →
        (pySplit (pyStrip body) "@")[1]? = some seg →
        pySplitWs seg = tok :: toks →
        bot_handle_comment o commenter body
          = Except.ok [ApiCall.addAssignees [tok],
              ApiCall.postComment ("✅ Assigned to @" ++ tok)]
        ∧ app_handle_comment o body = Except.ok [ApiCall.addAssignees [tok]])
    ∧ (∀ seg,
        pyContains (pyStrip body) '@' = true →
        (pySplit (pyStrip body) "@")[1]? = some seg →
        pySplitWs seg = [] →
        bot_handle_comment o commenter body = Except.error PyErr.indexError
        ∧ app_handle_comment o body = Except.error PyErr.indexError) := by
  obtain ⟨hh, hcl, hch, hj, hm⟩ := assign_prefix_excludes cmd hcmd
  have hlab := assign_prefix_not_label cmd hcmd
  refine ⟨?_, ?_, ?_⟩
  · intro hat
    constructor
    · simp [bot_handle_comment, hs, hsplit, hcmd, hat, hh]
    · simp [app_handle_comment, hs, hsplit, hcmd, hat, hh, hlab, hcl, hch, hj, hm]
  · intro seg tok toks hat hseg htok
    constructor
    · simp [bot_handle_comment, hs, hsplit, hcmd, hat, hseg, htok, hh]
    · simp [app_handle_comment, hs, hsplit, hcmd, hat, hseg, htok, hh]
  · intro seg hat hseg htok
    constructor
    · simp [bot_handle_comment, hs, hsplit, hcmd, hat, hseg, htok, hh]
    · simp [app_handle_comment, hs, hsplit, hcmd, hat, hseg, htok, hh]

/-- Witness for C6 (amended): `/assign @alice please` assigns `alice` and
ignores the trailing text. -/
theorem assign_command_extraction_witness :
    bot_handle_comment defaultOracle "bob" "/assign @alice please"
      = Except.ok [ApiCall.addAssignees ["alice"],
          ApiCall.postComment "✅ Assigned to @alice"]
    ∧ app_handle_comment defaultOracle "/assign @alice please"
      = Except.ok [ApiCall.addAssignees ["alice"]] :=
  (assign_command_extraction defaultOracle "bob" "/assign @alice please"
      "/assign" ["@alice", "please"] (by decide) (by decide) (by decide)).2.1
    "alice please" "alice" ["please"] (by decide) (by decide) (by decide)

/-- C10: command verb recognition is prefix-based, not exact-match: any first
lower-cased token beginning with `/assign` (e.g. `/assignees`) runs the assign
handler, which adds the first token after the first `@` (given the body
contains `@` and such a token exists), and any first token beginning with
`/label` is dispatched to the label branch in both handlers. -/
theorem command_prefix_dispatch (o : Oracle) (commenter body : String)
    (cmd : String) (tl : List String)
    (hs : pyStartsWith (pyStrip body) "/" = true)
    (hsplit : pySplitWs (pyLower (pyStrip body)) = cmd :: tl) :
    (∀ seg tok toks,
        pyStartsWith cmd "/assign" = true →
        pyContains (pyStrip body) '@' = true →
        (pySplit (pyStrip body) "@")[1]? = some seg →
        pySplitWs seg = tok :: toks →
        bot_handle_comment o commenter body
          = Except.ok [ApiCall.addAssignees [tok],
              ApiCall.postComment ("✅ Assigned to @" ++ tok)]
        ∧ app_handle_comment o body = Except.ok [ApiCall.addAssignees [tok]])
    ∧ (pyStartsWith cmd "/label" = true →
        bot_handle_comment o commenter body = bot_label_branch (pyStrip body)
        ∧ app_handle_comment o body = app_label_branch (pyStrip body)) := by
  constructor
  · intro seg tok toks hcmd hat hseg htok
    have hh := (assign_prefix_excludes cmd hcmd).1
    constructor
    · simp [bot_handle_comment, hs, hsplit, hcmd, hat, hseg, htok, hh]
    · simp [app_handle_comment, hs, hsplit, hcmd, hat, hseg, htok, hh]
  · intro hcmd
    have hh := label_prefix_ne_help cmd hcmd
    have hna := label_prefix_not_assign cmd hcmd
    constructor
    · simp [bot_handle_comment, hs, hsplit, hcmd, hh, hna]
    · simp [app_handle_comment, hs, hsplit, hcmd, hh, hna]

/-- Witness for C10: `/assignees @bob now` assigns `bob`; `/labels x` reaches
the label branch of both handlers. -/
theorem command_prefix_dispatch_witness :
    bot_handle_comment defaultOracle "u" "/assignees @bob now"
      = Except.ok [ApiCall.addAssignees ["bob"], ApiCall.postComment "✅ Assigned to @bob"]
    ∧ (bot_handle_comment defaultOracle "u" "/labels x" = bot_label_branch "/labels x"
       ∧ app_handle_comment defaultOracle "/labels x" = app_label_branch "/labels x") :=
  ⟨((command_prefix_dispatch defaultOracle "u" "/assignees @bob now"
        "/assignees" ["@bob", "now"] (by decide) (by decide)).1
      "bob now" "bob" ["now"] (by decide) (by decide) (by decide) (by decide)).1,
   (command_prefix_dispatch defaultOracle "u" "/labels x"
        "/labels" ["x"] (by decide) (by decide)).2 (by decide)⟩

/-- C8: for every well-formed delivery whose (eventType, action) pair is not a
routing-table row — not `pull_request`/`opened`, not `pull_request`/`closed`,
not `issues`/`opened`, not `issue_comment`/`created` — both webhook handlers
issue no platform call and return HTTP 200 without raising. -/
theorem router_unmatched_noop (o : Oracle) (ev : WebhookEvent)
    (h1 : ¬(ev.eventType = "pull_request" ∧ ev.action = "opened"))
    (h2 : ¬(ev.eventType = "pull_request" ∧ ev.action = "closed"))
    (h3 : ¬(ev.eventType = "issues" ∧ ev.action = "opened"))
    (h4 : ¬(ev.eventType = "issue_comment" ∧ ev.action = "created")) :
    bot_webhook o ev = Except.ok (200, [])
    ∧ (ev.installationId.isSome = true → app_webhook o ev = Except.ok (200, [])) := by
  constructor
  · unfold bot_webhook
    by_cases hpr : ev.eventType = "pull_request"
    · have ho : ev.action ≠ "opened" := fun h => h1 ⟨hpr, h⟩
      have hc : ev.action ≠ "closed" := fun h => h2 ⟨hpr, h⟩
      simp [hpr, ho, hc]
    · by_cases his : ev.eventType = "issues"
      · have ho : ev.action ≠ "opened" := fun h => h3 ⟨his, h⟩
        simp [hpr, his, ho]
      · simp [hpr, his, h4]
  · intro hin
    rcases hii : ev.installationId with _ | i
    · rw [hii] at hin; simp at hin
    · unfold app_webhook
      rw [hii]
      by_cases hpr : ev.eventType = "pull_request"
      · have ho : ev.action ≠ "opened" := fun h => h1 ⟨hpr, h⟩
        have hc : ev.action ≠ "closed" := fun h => h2 ⟨hpr, h⟩
        simp [hpr, ho, hc]
      · simp [hpr, h3, h4]

/-- Witness for C8 at a `pull_request`/`synchronize` delivery. -/
theorem router_unmatched_noop_witness :
    bot_webhook defaultOracle
        ⟨"pull_request", "synchronize", some 1, false, "ann", "t", "", none, "u", ""⟩
      = Except.ok (200, [])
    ∧ app_webhook defaultOracle
        ⟨"pull_request", "synchronize", some 1, false, "ann", "t", "", none, "u", ""⟩
      = Except.ok (200, []) :=
  have h := router_unmatched_noop defaultOracle
    ⟨"pull_request", "synchronize", some 1, false, "ann", "t", "", none, "u", ""⟩
    (by decide) (by decide) (by decide) (by decide)
  ⟨h.1, h.2 rfl⟩
